import Mathlib

/-!
Verification of the configuration loader of `python_template`.

The development shallowly embeds the program's two core modules:
  * the field-coercion library of `src/config_parser.py`
    (`from_bool`, `from_int`, `from_str`, `from_none`, `from_list`,
    `from_union`, `to_class`) together with `Tools.check_instance`,
    `Tools.str2bool` and `Tools.validate_path` from `src/tools.py`;
  * the config model (`Config.deserialize`, `Config.serialize`,
    `ObjectList.deserialize`, `ObjectList.serialize`).

Decoded JSON documents and the in-memory field values are both Python
values, modelled by one inductive type `PyV`.  Python exceptions become an
explicit error type `PyError`; the blanket `except:` of `from_union`, and
the selective `except TypeError` / `except FileNotFoundError` branches of
`Config.deserialize`, are modelled by matching on that type.  The
filesystem is a parameter `FS`: `resolve` stands for
`os.path.abspath(os.path.realpath(s))` and `pathExists` for
`os.path.exists`.  File IO is modelled at the value level: serialization
produces the path and the exact text the program would write, and
deserialization consumes the decoded document (the JSON encode/decode of
the standard library is taken as faithful).
-/

namespace PyCfg

/-- The single-quote character, used by Python `repr` and in the program's
error messages. -/
def sq : String := String.mk [Char.ofNat 39]

/-- A Python value as it occurs in this program: the shapes `json.loads`
can produce (None, bool, int, str, list, dict) plus instances of the
`ObjectList` dataclass, which live only in memory. -/
inductive PyV where
  | none
  | bool (b : Bool)
  | int (n : Int)
  | str (s : String)
  | list (xs : List PyV)
  | dict (kvs : List (String × PyV))
  | objectList (obj_id obj_desc : PyV)

/-- The Python exceptions this program raises. -/
inductive PyError where
  | typeError (msg : String)
  | valueError (msg : String)
  | fileNotFoundError (msg : String)
  | attributeError (msg : String)
deriving DecidableEq, Repr

/-- Python `repr`, fuel-bounded (the program's values are of bounded
depth; the fuel is never exhausted on them). Plain ASCII strings only,
which covers every string the program interpolates. -/
def pyReprFuel : Nat → PyV → String
  | _, .none => "None"
  | _, .bool true => "True"
  | _, .bool false => "False"
  | _, .int n => toString n
  | _, .str s => sq ++ s ++ sq
  | 0, _ => ""
  | f + 1, .list xs =>
      "[" ++ String.intercalate ", " (xs.map (pyReprFuel f)) ++ "]"
  | f + 1, .dict kvs =>
      "\x7b" ++ String.intercalate ", "
        (kvs.map (fun kv => sq ++ kv.1 ++ sq ++ ": " ++ pyReprFuel f kv.2)) ++ "\x7d"
  | f + 1, .objectList i d =>
      "ObjectList(obj_id=" ++ pyReprFuel f i ++ ", obj_desc=" ++ pyReprFuel f d ++ ")"

/-- Python `str(x)` as used by the program's f-strings: like `repr` except
that a string renders unquoted. -/
def pyStr : PyV → String
  | .str s => s
  | v => pyReprFuel 100 v

/-- The Python classes `check_instance` is called with. -/
inductive PyType where
  | boolT
  | intT
  | strT
  | listT
  | dictT
  | objectListT
deriving DecidableEq, Repr

/-- `cls.__name__` for each class. -/
def PyType.name : PyType → String
  | .boolT => "bool"
  | .intT => "int"
  | .strT => "str"
  | .listT => "list"
  | .dictT => "dict"
  | .objectListT => "ObjectList"

/-- Python `isinstance`.  `bool` is a subclass of `int`, so a boolean is
an instance of `int` as well — the source relies on `isinstance` and
therefore inherits this. -/
def isinstance : PyV → PyType → Bool
  | .bool _, .boolT => true
  | .bool _, .intT => true
  | .int _, .intT => true
  | .str _, .strT => true
  | .list _, .listT => true
  | .dict _, .dictT => true
  | .objectList _ _, .objectListT => true
  | _, _ => false

/-- `Tools.check_instance(val, class_type)` (tools.py:129).  `class_type =
None` demands the value be `None`; otherwise an `isinstance` test.  On
failure it raises `TypeError(f"\x7bval\x7d must be \x7bname\x7d.")`; we
keep the primary message (the second tuple slot is `None` at every call
site the claims touch). -/
def check_instance (val : PyV) (class_type : Option PyType) : Except PyError PyV :=
  match class_type with
  | Option.none =>
      match val with
      | .none => .ok val
      | _ => .error (.typeError (pyStr val ++ " must be None."))
  | Option.some t =>
      if isinstance val t then .ok val
      else .error (.typeError (pyStr val ++ " must be " ++ t.name ++ "."))

/-- `from_bool` (config_parser.py:13). -/
def from_bool (x : PyV) : Except PyError PyV :=
  match check_instance x (some .boolT) with
  | .ok _ => .ok x
  | .error e => .error e

/-- `from_int` (config_parser.py:17). -/
def from_int (x : PyV) : Except PyError PyV :=
  match check_instance x (some .intT) with
  | .ok _ => .ok x
  | .error e => .error e

/-- `from_str` (config_parser.py:21). -/
def from_str (x : PyV) : Except PyError PyV :=
  match check_instance x (some .strT) with
  | .ok _ => .ok x
  | .error e => .error e

/-- `from_none` (config_parser.py:25). -/
def from_none (x : PyV) : Except PyError PyV :=
  match check_instance x Option.none with
  | .ok _ => .ok x
  | .error e => .error e

/-- A Python list comprehension `[f(y) for y in x]`: left to right,
stopping at the first exception. -/
def mapExcept (f : PyV → Except PyError PyV) : List PyV → Except PyError (List PyV)
  | [] => .ok []
  | x :: xs =>
      match f x with
      | .error e => .error e
      | .ok y =>
          match mapExcept f xs with
          | .error e => .error e
          | .ok ys => .ok (y :: ys)

/-- `from_list` (config_parser.py:29): `check_instance(x, list)` then the
comprehension. -/
def from_list (f : PyV → Except PyError PyV) : PyV → Except PyError PyV
  | .list xs =>
      match mapExcept f xs with
      | .ok ys => .ok (.list ys)
      | .error e => .error e
  | x => .error (.typeError (pyStr x ++ " must be list."))

/-- A check as `from_union` receives it: its `__name__` and the function.
The name is carried because the source's error message is built from the
checks (`[type(f.__name__) for f in fs]`). -/
abbrev NamedCheck := String × (PyV → Except PyError PyV)

/-- The message of `from_union`'s final `TypeError`
(config_parser.py:39).  The source formats
`[type(f.__name__) for f in fs]`: `f.__name__` is a string, so
`type(f.__name__)` is the class `str` for EVERY check, and each list entry
renders as `<class 'str'>` — the checks' names never reach the message. -/
def unionMsg (n : Nat) (x : PyV) : String :=
  pyStr x ++ " should be one out of [" ++
    String.intercalate ", " (List.replicate n ("<class " ++ sq ++ "str" ++ sq ++ ">")) ++ "]"

/-- The `for f in fs: try: return f(x) except: pass` loop of `from_union`:
the first check that does not raise wins; the bare `except:` swallows every
error kind. -/
def tryEach : List NamedCheck → PyV → Option PyV
  | [], _ => Option.none
  | (_, f) :: rest, x =>
      match f x with
      | .ok v => some v
      | .error _ => tryEach rest x

/-- `from_union` (config_parser.py:33). -/
def from_union (checks : List NamedCheck) (x : PyV) : Except PyError PyV :=
  match tryEach checks x with
  | some v => .ok v
  | Option.none => .error (.typeError (unionMsg checks.length x))

/-- Python `s.lower()` on the ASCII strings this program handles
(character-wise lower-casing). -/
def pyLower (s : String) : String := String.mk (s.data.map Char.toLower)

/-- `Tools.str2bool` (tools.py:58): `s.lower() in ("true", "yes", "y")`. -/
def str2bool (s : String) : Bool :=
  pyLower s == "true" || pyLower s == "yes" || pyLower s == "y"

/-- The filesystem as the program observes it: `resolve` models
`os.path.abspath(os.path.realpath(s))`, `pathExists` models
`os.path.exists`. -/
structure FS where
  resolve : String → String
  pathExists : String → Bool

/-- `Tools.validate_path` (tools.py:85): an empty string is rejected with
`ValueError("Empty path.")` before any filesystem access; otherwise the
string is resolved and its existence checked, a missing path raising
`FileNotFoundError`. -/
def validate_path (fsys : FS) (s : String) : Except PyError String :=
  if s = "" then .error (.valueError "Empty path.")
  else
    let path := fsys.resolve s
    if fsys.pathExists path then .ok path
    else .error (.fileNotFoundError ("Path " ++ sq ++ path ++ sq ++ " does not exist."))

/-! ### The schema constants of `config/consts.py` -/

def CONFIG_SAMPLE_BOOL : String := "sample_bool"

def CONFIG_SAMPLE_PATH : String := "sample_path"

def CONFIG_SAMPLE_STRING : String := "sample_string"

def CONFIG_SAMPLE_INT : String := "sample_int"

def CONFIG_SIMPLE_LIST : String := "simple_list"

def CONFIG_OBJECT_LIST : String := "object_list"

def CONFIG_OBJECT_OBJ_ID : String := "obj_id"

def CONFIG_OBJECT_OBJ_DESC : String := "obj_desc"

/-- Python `obj.get(key)` on a dict: the key's value, or `None` when the
key is missing.  On a non-dict the attribute access raises
`AttributeError`. -/
def objGet (obj : PyV) (key : String) : Except PyError PyV :=
  match obj with
  | .dict kvs => .ok ((kvs.lookup key).getD .none)
  | v => .error (.attributeError (pyStr v ++ " has no attribute get"))

/-- `ObjectList.deserialize` (config_parser.py:52): both fields through
`from_union([from_none, from_int/str], obj.get(key))`.  Its
`except ValueError` branch is dead code — `from_union` raises `TypeError`
and `obj.get` `AttributeError`, never `ValueError` — so it is not
modelled. -/
def ObjectList.deserialize (obj : PyV) : Except PyError PyV :=
  match objGet obj CONFIG_OBJECT_OBJ_ID with
  | .error e => .error e
  | .ok raw_id =>
  match from_union [("from_none", from_none), ("from_int", from_int)] raw_id with
  | .error e => .error e
  | .ok obj_id =>
  match objGet obj CONFIG_OBJECT_OBJ_DESC with
  | .error e => .error e
  | .ok raw_desc =>
  match from_union [("from_none", from_none), ("from_str", from_str)] raw_desc with
  | .error e => .error e
  | .ok obj_desc => .ok (.objectList obj_id obj_desc)

/-- `ObjectList.serialize` (config_parser.py:64): re-validates both fields
and builds the two-key dict (in insertion order). -/
def ObjectList.serialize (obj_id obj_desc : PyV) : Except PyError PyV :=
  match from_union [("from_none", from_none), ("from_int", from_int)] obj_id with
  | .error e => .error e
  | .ok v1 =>
  match from_union [("from_none", from_none), ("from_str", from_str)] obj_desc with
  | .error e => .error e
  | .ok v2 => .ok (.dict [(CONFIG_OBJECT_OBJ_ID, v1), (CONFIG_OBJECT_OBJ_DESC, v2)])

/-- `to_class(ObjectList, x)` (config_parser.py:42): `check_instance`
against the class, then `x.serialize()`. -/
def to_class (x : PyV) : Except PyError PyV :=
  match x with
  | .objectList i d => ObjectList.serialize i d
  | v => .error (.typeError (pyStr v ++ " must be ObjectList."))

/-- The in-memory `Config` dataclass.  Field values are Python values:
the program is dynamically typed and (per `from_union` returning the raw
value unchanged) the fields can hold any shape the checks let through. -/
structure Config where
  sample_bool : PyV
  sample_path : PyV
  sample_string : PyV
  sample_int : PyV
  simple_list : PyV
  object_list : PyV

/-- The `if sample_path is not None: sample_path = Tools.validate_path(sample_path)`
step (config_parser.py:92): the union before it yields only `None` or a
string, and a string is resolved and existence-checked. -/
def pathField (fsys : FS) (path_tmp : PyV) : Except PyError PyV :=
  match path_tmp with
  | .str s =>
      match validate_path fsys s with
      | .ok p => .ok (.str p)
      | .error e => .error e
  | v => .ok v

/-- The `try:` body of `Config.deserialize` (config_parser.py:83), taken
from the decoded document (`Tools.read_json` has already validated the
input path and checked the top level is a dict).  Field order and each
field's check chain follow the source line by line; a string
`sample_bool` is coerced through `Tools.str2bool`, and a non-None
`sample_path` goes through `Tools.validate_path`. -/
def Config.deserializeFields (fsys : FS) (obj : PyV) : Except PyError Config :=
  match objGet obj CONFIG_SAMPLE_BOOL with
  | .error e => .error e
  | .ok raw_bool =>
  match from_union
      [("from_str", from_str), ("from_bool", from_bool), ("from_none", from_none)] raw_bool with
  | .error e => .error e
  | .ok sample_bool_tmp =>
  let sample_bool : PyV :=
    match sample_bool_tmp with
    | .str s => .bool (str2bool s)
    | v => v
  match objGet obj CONFIG_SAMPLE_PATH with
  | .error e => .error e
  | .ok raw_path =>
  match from_union [("from_none", from_none), ("from_str", from_str)] raw_path with
  | .error e => .error e
  | .ok path_tmp =>
  match pathField fsys path_tmp with
  | .error e => .error e
  | .ok sample_path =>
  match objGet obj CONFIG_SAMPLE_STRING with
  | .error e => .error e
  | .ok raw_string =>
  match from_union [("from_none", from_none), ("from_str", from_str)] raw_string with
  | .error e => .error e
  | .ok sample_string =>
  match objGet obj CONFIG_SAMPLE_INT with
  | .error e => .error e
  | .ok raw_int =>
  match from_union [("from_none", from_none), ("from_int", from_int)] raw_int with
  | .error e => .error e
  | .ok sample_int =>
  match objGet obj CONFIG_SIMPLE_LIST with
  | .error e => .error e
  | .ok raw_sl =>
  match from_union [("<lambda>", from_list from_str), ("from_none", from_none)] raw_sl with
  | .error e => .error e
  | .ok simple_list =>
  match objGet obj CONFIG_OBJECT_LIST with
  | .error e => .error e
  | .ok raw_ol =>
  match from_union
      [("<lambda>", from_list ObjectList.deserialize), ("from_none", from_none)] raw_ol with
  | .error e => .error e
  | .ok object_list =>
    .ok ⟨sample_bool, sample_path, sample_string, sample_int, simple_list, object_list⟩

/-- How a call to `Config.deserialize` ends: a Config, or
`sys.exit(-1)` after a critical log of the exception's message, or an
exception the method's `except` branches do not catch, propagating to the
caller. -/
inductive DeserOutcome where
  | ok (c : Config)
  | exited (msg : String)
  | uncaught (e : PyError)

/-- `Config.deserialize`'s error handling (config_parser.py:98): it
catches exactly `TypeError` and `FileNotFoundError` (logging the message
and exiting the process); every other exception — in particular the
`ValueError` of `Tools.validate_path` on an empty string — propagates. -/
def Config.deserializeRun (fsys : FS) (obj : PyV) : DeserOutcome :=
  match Config.deserializeFields fsys obj with
  | .ok c => .ok c
  | .error (.typeError m) => .exited m
  | .error (.fileNotFoundError m) => .exited m
  | .error e => .uncaught e

/-! ### Serialization -/

/-- Whether the string's last character is a path separator. -/
def lastIsSlash (a : String) : Bool :=
  match a.data.getLast? with
  | some c => c == Char.ofNat 47
  | _ => false

/-- Whether the string's first character is a path separator. -/
def headIsSlash (b : String) : Bool :=
  match b.data with
  | c :: _ => c == Char.ofNat 47
  | _ => false

/-- `os.path.join(a, b)` for the cases this program meets: an absolute
`b` replaces `a`; otherwise the two join with exactly one separator. -/
def joinPath (a b : String) : String :=
  if a = "" then b
  else if headIsSlash b then b
  else if lastIsSlash a then a ++ b
  else a ++ "/" ++ b

/-- JSON string quoting as `json.dumps` performs it on the plain ASCII
strings this program handles. -/
def jsonQuoteChar (c : Char) : String :=
  if c = Char.ofNat 34 then "\\\""
  else if c = Char.ofNat 92 then "\\\\"
  else if c = Char.ofNat 10 then "\\n"
  else if c = Char.ofNat 9 then "\\t"
  else if c = Char.ofNat 13 then "\\r"
  else String.mk [c]

/-- A JSON string literal. -/
def jsonQuote (s : String) : String :=
  "\"" ++ String.join (s.data.map jsonQuoteChar) ++ "\""

/-- Four spaces per indentation level: `json.dumps(..., indent=4)`. -/
def jsonIndent (lvl : Nat) : String := String.mk (List.replicate (4 * lvl) (Char.ofNat 32))

/-- `json.dumps(v, indent=4)`, fuel-bounded (the serialized dict nests at
most three levels; the fuel is never exhausted on it).  Scalars render as
JSON scalars; non-empty containers open on their own line with each item
indented one level deeper, items separated by `",\n"`, keys followed by
`": "`; empty containers render inline.  An `objectList` value is not
JSON-serializable (the real `json.dumps` would raise) and never reaches
this printer from `Config.serialize`, which converts entries through
`to_class` first. -/
def jsonDumpsFuel : Nat → Nat → PyV → String
  | _, _, .none => "null"
  | _, _, .bool true => "true"
  | _, _, .bool false => "false"
  | _, _, .int n => toString n
  | _, _, .str s => jsonQuote s
  | 0, _, _ => ""
  | _ + 1, _, .list [] => "[]"
  | f + 1, lvl, .list xs =>
      "[\n" ++
        String.intercalate ",\n"
          (xs.map (fun v => jsonIndent (lvl + 1) ++ jsonDumpsFuel f (lvl + 1) v)) ++
        "\n" ++ jsonIndent lvl ++ "]"
  | _ + 1, _, .dict [] => "\x7b\x7d"
  | f + 1, lvl, .dict kvs =>
      "\x7b\n" ++
        String.intercalate ",\n"
          (kvs.map (fun kv =>
            jsonIndent (lvl + 1) ++ jsonQuote kv.1 ++ ": " ++ jsonDumpsFuel f (lvl + 1) kv.2)) ++
        "\n" ++ jsonIndent lvl ++ "\x7d"
  | _, _, .objectList _ _ => ""

/-- `json.dumps(v, indent=4)`. -/
def jsonDumps (v : PyV) : String := jsonDumpsFuel 100 0 v

/-- The `result` dict `Config.serialize` (config_parser.py:112) builds:
each of the six fields re-validated through the same alternative chains,
keys inserted in source order.  Any chain failing raises before the output
file is opened. -/
def Config.serializeResult (c : Config) : Except PyError PyV :=
  match from_union [("from_none", from_none), ("from_bool", from_bool)] c.sample_bool with
  | .error e => .error e
  | .ok v1 =>
  match from_union [("from_none", from_none), ("from_str", from_str)] c.sample_path with
  | .error e => .error e
  | .ok v2 =>
  match from_union [("from_none", from_none), ("from_str", from_str)] c.sample_string with
  | .error e => .error e
  | .ok v3 =>
  match from_union [("from_none", from_none), ("from_int", from_int)] c.sample_int with
  | .error e => .error e
  | .ok v4 =>
  match from_union [("<lambda>", from_list from_str), ("from_none", from_none)] c.simple_list with
  | .error e => .error e
  | .ok v5 =>
  match from_union [("<lambda>", from_list to_class), ("from_none", from_none)] c.object_list with
  | .error e => .error e
  | .ok v6 =>
    .ok (.dict [(CONFIG_SAMPLE_BOOL, v1), (CONFIG_SAMPLE_PATH, v2),
                (CONFIG_SAMPLE_STRING, v3), (CONFIG_SAMPLE_INT, v4),
                (CONFIG_SIMPLE_LIST, v5), (CONFIG_OBJECT_LIST, v6)])

/-- How a call to `Config.serialize` ends: the output file written (its
path and exact text), or `sys.exit(-1)` (only the `FileNotFoundError` of
the directory check is caught), or an uncaught exception — a `TypeError`
from re-validation, or the `ValueError` of an empty directory string,
propagates out of the method.  `written` is produced only after every
field re-validated, mirroring that `open(...)` happens after the whole
`result` dict is built. -/
inductive SerOutcome where
  | written (path : String) (content : String)
  | exited (msg : String)
  | uncaught (e : PyError)

/-- Whether the call wrote the output file. -/
def SerOutcome.wrote : SerOutcome → Bool
  | .written _ _ => true
  | _ => false

/-- `Config.serialize(directory, filename)` (config_parser.py:112):
validate the directory (catching only `FileNotFoundError`), build the
`result` dict, then write `json.dumps(result, indent=4)` to
`os.path.join(dire, filename)`. -/
def Config.serializeRun (fsys : FS) (c : Config) (directory filename : String) : SerOutcome :=
  match validate_path fsys directory with
  | .error (.fileNotFoundError m) => .exited m
  | .error e => .uncaught e
  | .ok dire =>
      match c.serializeResult with
      | .error e => .uncaught e
      | .ok result => .written (joinPath dire filename) (jsonDumps result)

/-- Serialize to a JSON value and deserialize it back: the round trip of
§8 with the JSON text encode/decode (faithful on these values) elided. -/
def roundTrip (fsys : FS) (c : Config) : Except PyError Config :=
  match c.serializeResult with
  | .ok v => Config.deserializeFields fsys v
  | .error e => .error e

/-! ### Small helpers for stating the claims -/

/-- Whether `pat` starts the list `hay`. -/
def listLeads : List Char → List Char → Bool
  | [], _ => true
  | _ :: _, [] => false
  | a :: as, b :: bs => a == b && listLeads as bs

/-- Whether `pat` occurs in `hay` as a contiguous substring, via character
lists (decidable by evaluation). -/
def listHasSub (hay pat : List Char) : Bool :=
  match hay with
  | [] => pat.isEmpty
  | _ :: t => listLeads pat hay || listHasSub t pat

/-- Substring test on strings. -/
def containsStr (hay pat : String) : Bool := listHasSub hay.data pat.data

/-- Whether a deserialization result is the `FileNotFoundError` the spec
calls NotFound. -/
def isNotFoundErr : Except PyError Config → Bool
  | .error (.fileNotFoundError _) => true
  | _ => false

/-- A filesystem on which no path exists; its resolution is the
identity. -/
def fsNone : FS := ⟨fun s => s, fun _ => false⟩

/-- A filesystem on which every path exists; its resolution is the
identity. -/
def fsEvery : FS := ⟨fun s => s, fun _ => true⟩

/-- A filesystem on which every path exists and the relative path `rel`
resolves to the absolute `/abs/rel` (as `os.path.abspath` does to a
relative path). -/
def fsRel : FS := ⟨fun s => if s = "rel" then "/abs/rel" else s, fun _ => true⟩

/-- A value `from_union([from_none, from_int], ·)` accepts unchanged:
`None`, an int, or (because `isinstance(True, int)` holds) a bool. -/
def GoodId (v : PyV) : Prop := v = .none ∨ (∃ n, v = .int n) ∨ (∃ b, v = .bool b)

/-- A value `from_union([from_none, from_str], ·)` accepts unchanged. -/
def GoodDesc (v : PyV) : Prop := v = .none ∨ (∃ s, v = .str s)

/-- An in-memory `object_list` element `Config.serialize` accepts: an
`ObjectList` instance whose two fields pass their unions. -/
def GoodEntry (v : PyV) : Prop := ∃ i d, v = .objectList i d ∧ GoodId i ∧ GoodDesc d

/-- A raw `sample_bool` value its check chain
`[from_str, from_bool, from_none]` accepts. -/
def SampleBoolOk (v : PyV) : Prop := v = .none ∨ (∃ b, v = .bool b) ∨ (∃ t, v = .str t)

/-! ### Helper lemmas -/

theorem mapExcept_str {l : List PyV} (hl : ∀ v ∈ l, ∃ t, v = .str t) :
    mapExcept from_str l = .ok l := by
  induction l with
  | nil => rfl
  | cons x xs ih =>
    obtain ⟨t, rfl⟩ := hl x (List.mem_cons_self x xs)
    have hxs := ih (fun v hv => hl v (List.mem_cons_of_mem _ hv))
    simp [mapExcept, from_str, check_instance, isinstance, hxs]

theorem union_none_int_ok {i : PyV} (h : GoodId i) :
    from_union [("from_none", from_none), ("from_int", from_int)] i = .ok i := by
  rcases h with rfl | ⟨n, rfl⟩ | ⟨b, rfl⟩ <;> rfl

theorem union_none_str_ok {d : PyV} (h : GoodDesc d) :
    from_union [("from_none", from_none), ("from_str", from_str)] d = .ok d := by
  rcases h with rfl | ⟨s, rfl⟩ <;> rfl

theorem mapExcept_entries {os : List PyV} (hos : ∀ o ∈ os, GoodEntry o) :
    ∃ ds, mapExcept to_class os = .ok ds ∧ mapExcept ObjectList.deserialize ds = .ok os := by
  induction os with
  | nil => exact ⟨[], rfl, rfl⟩
  | cons o os ih =>
    obtain ⟨i, d, rfl, hi, hd⟩ := hos o (List.mem_cons_self o os)
    obtain ⟨ds, h1, h2⟩ := ih (fun v hv => hos v (List.mem_cons_of_mem _ hv))
    refine ⟨.dict [(CONFIG_OBJECT_OBJ_ID, i), (CONFIG_OBJECT_OBJ_DESC, d)] :: ds, ?_, ?_⟩
    · simp [mapExcept, to_class, ObjectList.serialize, union_none_int_ok hi,
        union_none_str_ok hd, h1]
    · simp [mapExcept, ObjectList.deserialize, objGet, List.lookup,
        union_none_int_ok hi, union_none_str_ok hd, h2, CONFIG_OBJECT_OBJ_ID,
        CONFIG_OBJECT_OBJ_DESC]

theorem mapExcept_append_error (f : PyV → Except PyError PyV) (as : List PyV) (b : PyV)
    (bs : List PyV) (e : PyError) (hok : ∀ a ∈ as, ∃ v, f a = .ok v)
    (hb : f b = .error e) : mapExcept f (as ++ b :: bs) = .error e := by
  induction as with
  | nil => simp [mapExcept, hb]
  | cons a as ih =>
    obtain ⟨v, hv⟩ := hok a (List.mem_cons_self a as)
    have := ih (fun x hx => hok x (List.mem_cons_of_mem _ hx))
    simp [mapExcept, hv, this]

theorem mapExcept_forall2 (f : PyV → Except PyError PyV) {xs ys : List PyV}
    (h : List.Forall₂ (fun a v => f a = .ok v) xs ys) : mapExcept f xs = .ok ys := by
  induction h with
  | nil => rfl
  | cons ha _ ih => simp [mapExcept, ha, ih]

/-! ### The claims -/

/-- C1 (amended): round-trip identity for a fully-specified, well-typed
Config whose `sample_path` is an existing path that is moreover stable
under filesystem resolution (already in resolved absolute form):
serializing and deserializing reproduces every field's value exactly.
The resolution proviso is forced by `c1_counterexample`: deserialization
passes `sample_path` through `Tools.validate_path`, which rewrites it to
resolved form. -/
theorem c1_round_trip (fsys : FS) (b : Bool) (p s : String) (n : Int) (l os : List PyV)
    (hp : p ≠ "") (hres : fsys.resolve p = p) (hex : fsys.pathExists p = true)
    (hl : ∀ v ∈ l, ∃ t, v = .str t) (hos : ∀ o ∈ os, GoodEntry o) :
    roundTrip fsys ⟨.bool b, .str p, .str s, .int n, .list l, .list os⟩ =
      .ok ⟨.bool b, .str p, .str s, .int n, .list l, .list os⟩ := by
  obtain ⟨ds, h1, h2⟩ := mapExcept_entries hos
  have hS : Config.serializeResult ⟨.bool b, .str p, .str s, .int n, .list l, .list os⟩ =
      .ok (.dict [(CONFIG_SAMPLE_BOOL, .bool b), (CONFIG_SAMPLE_PATH, .str p),
        (CONFIG_SAMPLE_STRING, .str s), (CONFIG_SAMPLE_INT, .int n),
        (CONFIG_SIMPLE_LIST, .list l), (CONFIG_OBJECT_LIST, .list ds)]) := by
    simp [Config.serializeResult, from_union, tryEach, from_bool, from_str, from_int,
      from_none, check_instance, isinstance, from_list, mapExcept_str hl, h1]
  have hD : Config.deserializeFields fsys
      (.dict [(CONFIG_SAMPLE_BOOL, .bool b), (CONFIG_SAMPLE_PATH, .str p),
        (CONFIG_SAMPLE_STRING, .str s), (CONFIG_SAMPLE_INT, .int n),
        (CONFIG_SIMPLE_LIST, .list l), (CONFIG_OBJECT_LIST, .list ds)]) =
      .ok ⟨.bool b, .str p, .str s, .int n, .list l, .list os⟩ := by
    simp [Config.deserializeFields, objGet, List.lookup, CONFIG_SAMPLE_BOOL,
      CONFIG_SAMPLE_PATH, CONFIG_SAMPLE_STRING, CONFIG_SAMPLE_INT, CONFIG_SIMPLE_LIST,
      CONFIG_OBJECT_LIST, from_union, tryEach, from_bool, from_str, from_int, from_none,
      check_instance, isinstance, from_list, mapExcept_str hl, h2, pathField,
      validate_path, hp, hres, hex]
  unfold roundTrip
  rw [hS]
  exact hD

/-- C1 counterexample: a Config with every field present and
`sample_path = "rel"` naming an existing path; the round trip rewrites
`sample_path` to the resolved `/abs/rel`, so it does not reproduce the
field exactly, against the claim's "only permitted loss is the
absent/null collapse". -/
theorem c1_counterexample :
    fsRel.pathExists (fsRel.resolve "rel") = true ∧
    roundTrip fsRel ⟨.bool true, .str "rel", .str "s", .int 0, .list [], .list []⟩ =
      .ok ⟨.bool true, .str "/abs/rel", .str "s", .int 0, .list [], .list []⟩ ∧
    roundTrip fsRel ⟨.bool true, .str "rel", .str "s", .int 0, .list [], .list []⟩ ≠
      .ok ⟨.bool true, .str "rel", .str "s", .int 0, .list [], .list []⟩ := by
  refine ⟨rfl, rfl, ?_⟩
  intro h
  have h' := (show roundTrip fsRel ⟨.bool true, .str "rel", .str "s", .int 0, .list [], .list []⟩ =
      .ok ⟨.bool true, .str "/abs/rel", .str "s", .int 0, .list [], .list []⟩ from rfl).symm.trans h
  injection h' with hc
  have hpath := congrArg Config.sample_path hc
  injection hpath with hstr
  exact absurd hstr (by decide)

/-- C1 witness: the round trip at a concrete fully-specified Config with
an already-resolved `sample_path`. -/
theorem c1_round_trip_witness :
    roundTrip fsEvery ⟨.bool true, .str "/p", .str "hi", .int 5, .list [.str "a"],
        .list [.objectList (.int 1) (.str "x")]⟩ =
      .ok ⟨.bool true, .str "/p", .str "hi", .int 5, .list [.str "a"],
        .list [.objectList (.int 1) (.str "x")]⟩ :=
  c1_round_trip fsEvery true "/p" "hi" 5 [.str "a"] [.objectList (.int 1) (.str "x")]
    (by decide) rfl rfl
    (by intro v hv
        rw [List.mem_singleton] at hv
        exact ⟨"a", hv⟩)
    (by intro o ho
        rw [List.mem_singleton] at ho
        exact ⟨.int 1, .str "x", ho, Or.inr (Or.inl ⟨1, rfl⟩), Or.inr ⟨"x", rfl⟩⟩)

/-- C2 counterexample: on the document with `sample_int` set to the
string `not a number`, deserialize exits with the `from_union`
diagnostic, and that diagnostic contains neither the field name
`sample_int` nor the expected alternatives — not even the substrings
`int`, `null` or `None` occur in it. -/
theorem c2_counterexample :
    Config.deserializeRun fsNone (.dict [(CONFIG_SAMPLE_INT, .str "not a number")]) =
      .exited (unionMsg 2 (.str "not a number")) ∧
    containsStr (unionMsg 2 (.str "not a number")) CONFIG_SAMPLE_INT = false ∧
    containsStr (unionMsg 2 (.str "not a number")) "int" = false ∧
    containsStr (unionMsg 2 (.str "not a number")) "null" = false ∧
    containsStr (unionMsg 2 (.str "not a number")) "None" = false :=
  ⟨rfl, by decide, by decide, by decide, by decide⟩

/-- C2 (amended): on the document with `sample_int` set to the string
`not a number`, deserialize exits with a TypeError diagnostic that names
the offending raw value and holds one entry per attempted alternative,
but each entry reads `<class ...str...>` (the type of the check's
`__name__`), so the diagnostic identifies neither the field nor the
expected types. -/
theorem c2_diag :
    (∀ fsys : FS, Config.deserializeRun fsys (.dict [(CONFIG_SAMPLE_INT, .str "not a number")]) =
      .exited (unionMsg 2 (.str "not a number"))) ∧
    unionMsg 2 (.str "not a number") =
      "not a number should be one out of [<class " ++ sq ++ "str" ++ sq ++ ">, <class " ++
        sq ++ "str" ++ sq ++ ">]" ∧
    containsStr (unionMsg 2 (.str "not a number")) "not a number" = true :=
  ⟨fun _ => rfl, rfl, by decide⟩

/-- C3: `from_union` applies the checks in order and returns the first
success; when every check fails, it raises a TypeError — but, because the
source formats `type(f.__name__)` instead of `f.__name__`, the message
lists `<class ...str...>` once per check and names none of the attempted
shapes (neither the check names nor `None`/`int` appear for the
`[from_none, from_int]` chain). -/
theorem c3_from_union_eval :
    (∀ (nm : String) (f : PyV → Except PyError PyV) (rest : List NamedCheck) (x v : PyV),
        f x = .ok v → from_union ((nm, f) :: rest) x = .ok v) ∧
    (∀ (nm : String) (f : PyV → Except PyError PyV) (rest : List NamedCheck) (x : PyV)
        (e : PyError), f x = .error e → tryEach ((nm, f) :: rest) x = tryEach rest x) ∧
    (from_union [("from_none", from_none), ("from_int", from_int)] (.str "x") =
      .error (.typeError (unionMsg 2 (.str "x")))) ∧
    (unionMsg 2 (.str "x") =
      "x should be one out of [<class " ++ sq ++ "str" ++ sq ++ ">, <class " ++ sq ++
        "str" ++ sq ++ ">]") ∧
    containsStr (unionMsg 2 (.str "x")) "None" = false ∧
    containsStr (unionMsg 2 (.str "x")) "int" = false ∧
    containsStr (unionMsg 2 (.str "x")) "from_" = false := by
  refine ⟨?_, ?_, rfl, rfl, by decide, by decide, by decide⟩
  · intro nm f rest x v h
    simp [from_union, tryEach, h]
  · intro nm f rest x e h
    simp [tryEach, h]

/-- C4: whenever the document's `sample_bool` value is a string `s` and
deserialization succeeds, the field is set to the boolean
`str2bool s`, which is true exactly when the lower-cased `s` is one of
`true`, `yes`, `y`; in particular `Yes`, `true` and `y` yield true and
`no` yields false. -/
theorem c4_bool_word_coercion :
    (∀ (fsys : FS) (kvs : List (String × PyV)) (s : String) (c : Config),
        kvs.lookup CONFIG_SAMPLE_BOOL = some (.str s) →
        Config.deserializeFields fsys (.dict kvs) = .ok c →
        c.sample_bool = .bool (str2bool s)) ∧
    (∀ s : String, str2bool s = true ↔
        (pyLower s = "true" ∨ pyLower s = "yes" ∨ pyLower s = "y")) ∧
    (∀ fsys : FS, Config.deserializeRun fsys (.dict [(CONFIG_SAMPLE_BOOL, .str "Yes")]) =
        .ok ⟨.bool true, .none, .none, .none, .none, .none⟩) ∧
    (∀ fsys : FS, Config.deserializeRun fsys (.dict [(CONFIG_SAMPLE_BOOL, .str "true")]) =
        .ok ⟨.bool true, .none, .none, .none, .none, .none⟩) ∧
    (∀ fsys : FS, Config.deserializeRun fsys (.dict [(CONFIG_SAMPLE_BOOL, .str "y")]) =
        .ok ⟨.bool true, .none, .none, .none, .none, .none⟩) ∧
    (∀ fsys : FS, Config.deserializeRun fsys (.dict [(CONFIG_SAMPLE_BOOL, .str "no")]) =
        .ok ⟨.bool false, .none, .none, .none, .none, .none⟩) := by
  refine ⟨?_, ?_, fun _ => rfl, fun _ => rfl, fun _ => rfl, fun _ => rfl⟩
  · intro fsys kvs s c hkv hok
    unfold Config.deserializeFields at hok
    simp only [objGet, hkv, Option.getD] at hok
    rw [show from_union
        [("from_str", from_str), ("from_bool", from_bool), ("from_none", from_none)] (.str s) =
        .ok (.str s) from rfl] at hok
    simp only [] at hok
    iterate 6 (split at hok <;> try exact Except.noConfusion hok)
    injection hok with h
    rw [← h]
  · intro s
    simp [str2bool, Bool.or_eq_true, beq_iff_eq, or_assoc]

/-- C4 witness: the general conjunct applied at the document whose
`sample_bool` is the string `Yes`. -/
theorem c4_bool_word_coercion_witness :
    Config.deserializeFields fsEvery (.dict [(CONFIG_SAMPLE_BOOL, .str "Yes")]) =
      .ok ⟨.bool true, .none, .none, .none, .none, .none⟩ ∧
    (⟨.bool true, .none, .none, .none, .none, .none⟩ : Config).sample_bool =
      .bool (str2bool "Yes") :=
  ⟨rfl, c4_bool_word_coercion.1 fsEvery [(CONFIG_SAMPLE_BOOL, .str "Yes")] "Yes"
    ⟨.bool true, .none, .none, .none, .none, .none⟩ rfl rfl⟩

/-- C5: serializing the all-absent Config into an existing directory
(a non-empty name whose resolution exists, which is what
`Tools.validate_path` demands of it) writes a JSON object with all six
keys present and null, pretty-printed with 4-space indentation. -/
theorem c5_all_null (fsys : FS) (dir fn : String) (h1 : dir ≠ "")
    (h2 : fsys.pathExists (fsys.resolve dir) = true) :
    Config.serializeRun fsys ⟨.none, .none, .none, .none, .none, .none⟩ dir fn =
      .written (joinPath (fsys.resolve dir) fn)
        "\x7b\n    \"sample_bool\": null,\n    \"sample_path\": null,\n    \"sample_string\": null,\n    \"sample_int\": null,\n    \"simple_list\": null,\n    \"object_list\": null\n\x7d" := by
  have hv : validate_path fsys dir = .ok (fsys.resolve dir) := by
    simp [validate_path, h1, h2]
  unfold Config.serializeRun
  rw [hv]
  exact rfl

/-- C5 witness: the all-absent Config serialized to the directory `/out`
on a filesystem where it exists. -/
theorem c5_all_null_witness :
    Config.serializeRun fsEvery ⟨.none, .none, .none, .none, .none, .none⟩
        "/out" "processed_json.json" =
      .written "/out/processed_json.json"
        "\x7b\n    \"sample_bool\": null,\n    \"sample_path\": null,\n    \"sample_string\": null,\n    \"sample_int\": null,\n    \"simple_list\": null,\n    \"object_list\": null\n\x7d" :=
  c5_all_null fsEvery "/out" "processed_json.json" (by decide) rfl

/-- C6: `from_list` rejects every non-list value with a TypeError; on a
list it applies the element check left to right, propagating the first
element failure, and returns the ordered coerced elements; the empty
list is valid and yields the empty list — in particular a document with
`simple_list = []` deserializes to the empty list, which is distinct
from the absent value. -/
theorem c6_expect_list :
    (∀ (f : PyV → Except PyError PyV) (x : PyV), isinstance x .listT = false →
        from_list f x = .error (.typeError (pyStr x ++ " must be list."))) ∧
    (∀ f : PyV → Except PyError PyV, from_list f (.list []) = .ok (.list [])) ∧
    (∀ (f : PyV → Except PyError PyV) (as : List PyV) (b : PyV) (bs : List PyV) (e : PyError),
        (∀ a ∈ as, ∃ v, f a = .ok v) → f b = .error e →
        from_list f (.list (as ++ b :: bs)) = .error e) ∧
    (∀ (f : PyV → Except PyError PyV) (xs ys : List PyV),
        List.Forall₂ (fun a v => f a = .ok v) xs ys →
        from_list f (.list xs) = .ok (.list ys)) ∧
    (∀ fsys : FS, Config.deserializeFields fsys (.dict [(CONFIG_SIMPLE_LIST, .list [])]) =
        .ok ⟨.none, .none, .none, .none, .list [], .none⟩) ∧
    PyV.list [] ≠ PyV.none := by
  refine ⟨?_, fun f => rfl, ?_, ?_, fun _ => rfl, by intro h; exact PyV.noConfusion h⟩
  · intro f x hx
    cases x <;> first | rfl | simp [isinstance] at hx
  · intro f as b bs e hok hb
    simp [from_list, mapExcept_append_error f as b bs e hok hb]
  · intro f xs ys h
    simp [from_list, mapExcept_forall2 f h]

/-- C6 witness: the first-failure conjunct applied to a concrete list
whose second element is not a string. -/
theorem c6_expect_list_witness :
    from_list from_str (.list [.str "a", .int 3, .str "b"]) =
      .error (.typeError "3 must be str.") :=
  c6_expect_list.2.2.1 from_str [.str "a"] (.int 3) [.str "b"] (.typeError "3 must be str.")
    (by intro a ha
        rw [List.mem_singleton] at ha
        exact ⟨.str "a", by subst ha; exact rfl⟩) rfl

/-- C7 (amended): when the document's `sample_path` value is a NON-EMPTY
string resolving to a path that does not exist, and the `sample_bool`
entry processed before it is of a shape its own chain accepts (absent,
bool or string), deserialize exits with the NotFound diagnostic naming
the resolved absolute path.  The two extra provisos are forced by
`c7_counterexample`: a failing `sample_bool` preempts with TypeMismatch,
and the empty string fails with ValueError instead. -/
theorem c7_path_not_found (fsys : FS) (kvs : List (String × PyV)) (s : String)
    (hsb : SampleBoolOk ((kvs.lookup CONFIG_SAMPLE_BOOL).getD .none))
    (hs : kvs.lookup CONFIG_SAMPLE_PATH = some (.str s))
    (hne : s ≠ "")
    (hex : fsys.pathExists (fsys.resolve s) = false) :
    Config.deserializeRun fsys (.dict kvs) =
      .exited ("Path " ++ sq ++ fsys.resolve s ++ sq ++ " does not exist.") := by
  unfold Config.deserializeRun Config.deserializeFields
  rcases hsb with h0 | ⟨b, h0⟩ | ⟨t, h0⟩ <;>
    simp [objGet, h0, hs, from_union, tryEach, from_str, from_bool, from_none,
      check_instance, isinstance, pathField, validate_path, hne, hex]

/-- C7 witness: the spec's own input, a document whose only key is
`sample_path` with the value `/definitely/does/not/exist`, on a
filesystem where nothing exists. -/
theorem c7_path_not_found_witness :
    Config.deserializeRun fsNone
        (.dict [(CONFIG_SAMPLE_PATH, .str "/definitely/does/not/exist")]) =
      .exited ("Path " ++ sq ++ "/definitely/does/not/exist" ++ sq ++ " does not exist.") :=
  c7_path_not_found fsNone [(CONFIG_SAMPLE_PATH, .str "/definitely/does/not/exist")]
    "/definitely/does/not/exist" (Or.inl rfl) rfl (by decide) rfl

/-- C7 counterexample: two documents whose `sample_path` value is a
non-null string naming a nonexistent path, on which deserialize does NOT
fail with NotFound: an ill-typed `sample_bool` (processed first) makes it
fail with a TypeError, and the empty string makes it fail with a
ValueError. -/
theorem c7_counterexample :
    (Config.deserializeFields fsNone (.dict [(CONFIG_SAMPLE_BOOL, .list []),
        (CONFIG_SAMPLE_PATH, .str "/definitely/does/not/exist")]) =
      .error (.typeError (unionMsg 3 (.list [])))) ∧
    isNotFoundErr (Config.deserializeFields fsNone (.dict [(CONFIG_SAMPLE_BOOL, .list []),
        (CONFIG_SAMPLE_PATH, .str "/definitely/does/not/exist")])) = false ∧
    fsNone.pathExists (fsNone.resolve "/definitely/does/not/exist") = false ∧
    (Config.deserializeFields fsNone (.dict [(CONFIG_SAMPLE_PATH, .str "")]) =
      .error (.valueError "Empty path.")) ∧
    isNotFoundErr (Config.deserializeFields fsNone
      (.dict [(CONFIG_SAMPLE_PATH, .str "")])) = false :=
  ⟨rfl, rfl, rfl, rfl, rfl⟩

/-- C8: `Config.serialize` re-validates all six fields while building
the `result` dict, before the output file is opened; whenever that
re-validation raises a TypeError (a mutated, ill-typed field), no file
is written. -/
theorem c8_no_write_on_bad_field (fsys : FS) (c : Config) (dir fn m : String)
    (h : c.serializeResult = .error (.typeError m)) :
    (Config.serializeRun fsys c dir fn).wrote = false := by
  unfold Config.serializeRun
  cases hv : validate_path fsys dir with
  | error e => cases e <;> rfl
  | ok d =>
    rw [h]
    exact rfl

/-- C8 witness: a Config whose `sample_int` was mutated to a string
fails re-validation and writes nothing, even though the directory
exists. -/
theorem c8_no_write_witness :
    (⟨.none, .none, .none, .str "oops", .none, .none⟩ : Config).serializeResult =
      .error (.typeError (unionMsg 2 (.str "oops"))) ∧
    (Config.serializeRun fsEvery ⟨.none, .none, .none, .str "oops", .none, .none⟩ "/out"
        "f.json").wrote = false :=
  ⟨rfl, c8_no_write_on_bad_field fsEvery _ "/out" "f.json" (unionMsg 2 (.str "oops")) rfl⟩

/-- C9: on the document with `sample_path` set to the empty string,
`Tools.validate_path` raises `ValueError` (`Empty path.`) before any
existence check — on every filesystem, even one where everything exists —
and `Config.deserialize` catches only TypeError and FileNotFoundError, so
this ValueError propagates uncaught, a failure that is neither NotFound
nor TypeMismatch. -/
theorem c9_empty_path :
    (∀ fsys : FS, validate_path fsys "" = .error (.valueError "Empty path.")) ∧
    (∀ fsys : FS, Config.deserializeRun fsys (.dict [(CONFIG_SAMPLE_PATH, .str "")]) =
      .uncaught (.valueError "Empty path.")) :=
  ⟨fun _ => rfl, fun _ => rfl⟩

/-- C10: `from_int` relies on `isinstance(x, int)`, which booleans
satisfy, so a document with `sample_int = true` deserializes successfully
with the field holding the boolean, and likewise for `obj_id` inside
`object_list` entries. -/
theorem c10_bool_passes_int :
    (from_int (.bool true) = .ok (.bool true)) ∧
    (∀ fsys : FS, Config.deserializeFields fsys (.dict [(CONFIG_SAMPLE_INT, .bool true)]) =
      .ok ⟨.none, .none, .none, .bool true, .none, .none⟩) ∧
    (ObjectList.deserialize (.dict [(CONFIG_OBJECT_OBJ_ID, .bool true)]) =
      .ok (.objectList (.bool true) .none)) ∧
    (∀ fsys : FS, Config.deserializeFields fsys
        (.dict [(CONFIG_SAMPLE_INT, .bool true),
          (CONFIG_OBJECT_LIST, .list [.dict [(CONFIG_OBJECT_OBJ_ID, .bool true)]])]) =
      .ok ⟨.none, .none, .none, .bool true, .none,
        .list [.objectList (.bool true) .none]⟩) :=
  ⟨rfl, fun _ => rfl, rfl, fun _ => rfl⟩

end PyCfg
